import Mathlib

/-!
Shallow embedding of the `check` Go validation library.

Go values that can be passed as `interface{}` arguments are modelled by the
inductive `GoValue`.  Signed integer widths are collapsed to their widened
`int64` value (an `Int`), unsigned widths to `uint64` (a `Nat`), and both
float widths to a symbolic IEEE double (`GoFloat`: NaN, the two infinities,
or a finite value modelled by a rational; the signed zeros are conflated,
which is invisible to every comparison the library performs).  `time.Time`
is modelled by its instant (nanoseconds, an `Int`) plus a display offset
that `Equal`/`Before`/`After` ignore.  Structural values (bools, slices,
maps, structs that are not `time.Time`, pointers) carry their structure so
that `reflect.DeepEqual` can be modelled recursively.  Go errors are
modelled by the structured type `CheckErr` recording which error the code
constructed and its payload; a Go panic is modelled by `Option.none` in the
functions that can panic.
-/

namespace Check

/-- Model of an IEEE-754 double as used by the library: NaN, infinities, or
a finite value (signed zeros conflated; comparisons cannot tell them apart). -/
inductive GoFloat where
  | nan : GoFloat
  | negInf : GoFloat
  | fin (q : ℚ) : GoFloat
  | posInf : GoFloat
deriving DecidableEq

/-- IEEE equality on doubles: NaN is equal to nothing, including itself. -/
def feq : GoFloat → GoFloat → Bool
  | .nan, _ => false
  | _, .nan => false
  | .negInf, .negInf => true
  | .posInf, .posInf => true
  | .fin a, .fin b => decide (a = b)
  | _, _ => false

/-- IEEE strict less-than on doubles: any comparison with NaN is false. -/
def flt : GoFloat → GoFloat → Bool
  | .nan, _ => false
  | _, .nan => false
  | .negInf, .negInf => false
  | .negInf, _ => true
  | _, .negInf => false
  | .posInf, _ => false
  | .fin _, .posInf => true
  | .fin a, .fin b => decide (a < b)

/-- IEEE less-or-equal on doubles. -/
def fle (a b : GoFloat) : Bool := flt a b || feq a b

/-- IEEE strict greater-than on doubles. -/
def fgt (a b : GoFloat) : Bool := flt b a

/-- IEEE greater-or-equal on doubles. -/
def fge (a b : GoFloat) : Bool := fle b a

/-- Model of `time.Time`: the instant (nanoseconds since epoch) plus a
display offset.  `Equal`, `Before` and `After` look only at the instant;
`reflect.DeepEqual` sees the whole representation. -/
structure GoTime where
  instant : Int
  offset : Int
deriving DecidableEq

mutual

/-- A dynamically typed Go value as received through `interface{}`. -/
inductive GoValue where
  | nilV : GoValue
  | intV (n : Int) : GoValue
  | uintV (n : Nat) : GoValue
  | floatV (f : GoFloat) : GoValue
  | stringV (s : String) : GoValue
  | boolV (b : Bool) : GoValue
  | timeV (t : GoTime) : GoValue
  | ptrNilV : GoValue
  | ptrV (v : GoValue) : GoValue
  | sliceV (xs : GoList) : GoValue
  | structV (fs : GoList) : GoValue
  | mapV (es : GoPairs) : GoValue

/-- A list of Go values (slice elements or struct fields). -/
inductive GoList where
  | nil : GoList
  | cons (x : GoValue) (xs : GoList) : GoList

/-- Key/value entries of a Go map. -/
inductive GoPairs where
  | nil : GoPairs
  | cons (k v : GoValue) (es : GoPairs) : GoPairs

end

/-- Length of a `GoList` (the `reflect.Value.Len` of a slice). -/
def GoList.length : GoList → Nat
  | .nil => 0
  | .cons _ xs => 1 + xs.length

/-- Number of entries of a map value. -/
def GoPairs.length : GoPairs → Nat
  | .nil => 0
  | .cons _ _ es => 1 + es.length

mutual

/-- Model of `reflect.DeepEqual` on the supported value shapes.  Floats are
compared with IEEE equality (Go compares float fields with `==`), so a NaN
is not deep-equal to itself; times are compared by their whole
representation, not by instant. -/
def deepEqual : GoValue → GoValue → Bool
  | .nilV, .nilV => true
  | .intV a, .intV b => decide (a = b)
  | .uintV a, .uintV b => decide (a = b)
  | .floatV a, .floatV b => feq a b
  | .stringV a, .stringV b => decide (a = b)
  | .boolV a, .boolV b => a == b
  | .timeV a, .timeV b => decide (a = b)
  | .ptrNilV, .ptrNilV => true
  | .ptrV a, .ptrV b => deepEqual a b
  | .sliceV xs, .sliceV ys => deepEqualList xs ys
  | .structV xs, .structV ys => deepEqualList xs ys
  | .mapV es, .mapV fs => deepEqualPairs es fs
  | _, _ => false

/-- Elementwise deep equality of slices/struct fields. -/
def deepEqualList : GoList → GoList → Bool
  | .nil, .nil => true
  | .cons x xs, .cons y ys => deepEqual x y && deepEqualList xs ys
  | _, _ => false

/-- Entrywise deep equality of map contents. -/
def deepEqualPairs : GoPairs → GoPairs → Bool
  | .nil, .nil => true
  | .cons k v es, .cons l w fs => deepEqual k l && deepEqual v w && deepEqualPairs es fs
  | _, _ => false

end

/-- The `equals` helper of the library: `reflect.DeepEqual`. -/
def equals (x y : GoValue) : Bool := deepEqual x y

mutual

/-- `reflect.Zero(reflect.TypeOf(x))`: the zero value of the type of `x`. -/
def zeroValue : GoValue → GoValue
  | .nilV => .nilV
  | .intV _ => .intV 0
  | .uintV _ => .uintV 0
  | .floatV _ => .floatV (.fin 0)
  | .stringV _ => .stringV ""
  | .boolV _ => .boolV false
  | .timeV _ => .timeV ⟨0, 0⟩
  | .ptrNilV => .ptrNilV
  | .ptrV _ => .ptrNilV
  | .sliceV _ => .sliceV .nil
  | .structV fs => .structV (zeroList fs)
  | .mapV _ => .mapV .nil

/-- Zero values of a struct's fields, fieldwise. -/
def zeroList : GoList → GoList
  | .nil => .nil
  | .cons x xs => .cons (zeroValue x) (zeroList xs)

end

/-- Model of `isEmpty`.  `none` models a Go panic: for a typed nil pointer
the code calls `Interface()` on the invalid `reflect.Value` returned by
`Elem()`, which panics. -/
def isEmpty : GoValue → Option Bool
  | .nilV => some true
  | .sliceV xs => some (decide (xs.length = 0))
  | .mapV es => some (decide (es.length = 0))
  | .stringV s => some (decide (s = ""))
  | .ptrNilV => none
  | .ptrV v => isEmpty v
  | x => some (deepEqual x (zeroValue x))

/-- The `reflect.Kind` name of a value, as printed inside conversion error
messages (widths are collapsed, so one representative name per category). -/
def kindName : GoValue → String
  | .nilV => "invalid"
  | .intV _ => "int64"
  | .uintV _ => "uint64"
  | .floatV _ => "float64"
  | .stringV _ => "string"
  | .boolV _ => "bool"
  | .timeV _ => "struct"
  | .ptrNilV => "ptr"
  | .ptrV _ => "ptr"
  | .sliceV _ => "slice"
  | .structV _ => "struct"
  | .mapV _ => "map"

/-- Structured model of the `error` values the library constructs. -/
inductive CheckErr where
  | emptyArg : CheckErr
  | msg (s : String) : CheckErr
  | invalidOperator (op : Int) : CheckErr
  | convNil (target : String) : CheckErr
  | conv (target : String) (kind : String) : CheckErr
  | cmpFailed (op : Int) (x term : GoValue) : CheckErr
  | unsupportedOp (op : Int) (x term : GoValue) : CheckErr
  | inFailed (x : GoValue) (elems : List GoValue) : CheckErr
  | notInFailed (x : GoValue) (elems : List GoValue) : CheckErr
  | invalidPattern (pat : String) : CheckErr
  | patternMismatch (v : String) (pat : String) : CheckErr
  | formatInvalid (kind : String) (v : String) : CheckErr

/-- Model of `toInt64`: accepts any signed-integer kind (already widened in
the model), rejects nil and every other kind. -/
def toInt64 : GoValue → Except CheckErr Int
  | .nilV => .error (.convNil "int64")
  | .intV n => .ok n
  | x => .error (.conv "int64" (kindName x))

/-- Model of `toUint64`. -/
def toUint64 : GoValue → Except CheckErr Nat
  | .nilV => .error (.convNil "uint64")
  | .uintV n => .ok n
  | x => .error (.conv "uint64" (kindName x))

/-- Model of `toFloat64`: accepts both float widths, already widened. -/
def toFloat64 : GoValue → Except CheckErr GoFloat
  | .nilV => .error (.convNil "float64")
  | .floatV f => .ok f
  | x => .error (.conv "float64" (kindName x))

/-- Model of `toString`: accepts only a genuine string. -/
def toString : GoValue → Except CheckErr String
  | .nilV => .error (.convNil "string")
  | .stringV s => .ok s
  | x => .error (.conv "string" (kindName x))

/-- Model of `toTime`: the `x.(time.Time)` assertion succeeds only on a
genuine `time.Time` value. -/
def toTime : GoValue → Except CheckErr GoTime
  | .nilV => .error (.convNil "time.Time")
  | .timeV t => .ok t
  | x => .error (.conv "time.Time" (kindName x))

/-- The `eq` comparison operator constant (`cmpOp` is an integer type; the
constants run `iota + 1` = 1..6). -/
def eq : Int := 1

/-- The `ne` comparison operator constant. -/
def ne : Int := 2

/-- The `lt` comparison operator constant. -/
def lt : Int := 3

/-- The `lte` comparison operator constant. -/
def lte : Int := 4

/-- The `gt` comparison operator constant. -/
def gt : Int := 5

/-- The `gte` comparison operator constant. -/
def gte : Int := 6

/-- A comparison field: operator plus right-hand operand. -/
structure CmpField where
  op : Int
  term : GoValue

/-- Model of `newCmpField`: rejects operators outside the enumeration. -/
def newCmpField (op : Int) (term : GoValue) : Except CheckErr CmpField :=
  if op < eq || op > gte then .error (.invalidOperator op)
  else .ok ⟨op, term⟩

/-- Model of `compareInt64`: coerce the term to int64, then apply the
operator as 64-bit signed comparison. -/
def compareInt64 (x : Int) (cmp : CmpField) : Except CheckErr Unit :=
  match toInt64 cmp.term with
  | .error e => .error e
  | .ok term =>
    let op := cmp.op
    let ok : Bool :=
      if op = eq then decide (x = term)
      else if op = ne then decide (x ≠ term)
      else if op = lt then decide (x < term)
      else if op = lte then decide (x ≤ term)
      else if op = gt then decide (x > term)
      else if op = gte then decide (x ≥ term)
      else false
    if ok then .ok () else .error (.cmpFailed op (.intV x) (.intV term))

/-- Model of `compareUint64`. -/
def compareUint64 (x : Nat) (cmp : CmpField) : Except CheckErr Unit :=
  match toUint64 cmp.term with
  | .error e => .error e
  | .ok term =>
    let op := cmp.op
    let ok : Bool :=
      if op = eq then decide (x = term)
      else if op = ne then decide (x ≠ term)
      else if op = lt then decide (x < term)
      else if op = lte then decide (x ≤ term)
      else if op = gt then decide (x > term)
      else if op = gte then decide (x ≥ term)
      else false
    if ok then .ok () else .error (.cmpFailed op (.uintV x) (.uintV term))

/-- Model of `compareFloat64`: IEEE-754 double comparison, no special-casing
of NaN. -/
def compareFloat64 (x : GoFloat) (cmp : CmpField) : Except CheckErr Unit :=
  match toFloat64 cmp.term with
  | .error e => .error e
  | .ok term =>
    let op := cmp.op
    let ok : Bool :=
      if op = eq then feq x term
      else if op = ne then !feq x term
      else if op = lt then flt x term
      else if op = lte then fle x term
      else if op = gt then fgt x term
      else if op = gte then fge x term
      else false
    if ok then .ok () else .error (.cmpFailed op (.floatV x) (.floatV term))

/-- Model of `compareString`: lexical comparison (UTF-8 byte order on Go's
side coincides with codepoint order, which is what `String` compares). -/
def compareString (x : String) (cmp : CmpField) : Except CheckErr Unit :=
  match toString cmp.term with
  | .error e => .error e
  | .ok term =>
    let op := cmp.op
    let ok : Bool :=
      if op = eq then decide (x = term)
      else if op = ne then decide (x ≠ term)
      else if op = lt then decide (x < term)
      else if op = lte then decide (x ≤ term)
      else if op = gt then decide (x > term)
      else if op = gte then decide (x ≥ term)
      else false
    if ok then .ok () else .error (.cmpFailed op (.stringV x) (.stringV term))

/-- Model of `compareTime`: ordered by instant via `Equal`/`Before`/`After`;
`lte` is before-or-equal, `gte` after-or-equal. -/
def compareTime (x : GoTime) (cmp : CmpField) : Except CheckErr Unit :=
  match toTime cmp.term with
  | .error e => .error e
  | .ok term =>
    let op := cmp.op
    let ok : Bool :=
      if op = eq then decide (x.instant = term.instant)
      else if op = ne then decide (x.instant ≠ term.instant)
      else if op = lt then decide (x.instant < term.instant)
      else if op = lte then decide (x.instant < term.instant) || decide (x.instant = term.instant)
      else if op = gt then decide (x.instant > term.instant)
      else if op = gte then decide (x.instant > term.instant) || decide (x.instant = term.instant)
      else false
    if ok then .ok () else .error (.cmpFailed op (.timeV x) (.timeV term))

/-- Model of `compareInterface`: deep structural equality for `eq`/`ne`,
unsupported-operation error for every ordering operator. -/
def compareInterface (x : GoValue) (cmp : CmpField) : Except CheckErr Unit :=
  let op := cmp.op
  let term := cmp.term
  if op = eq then
    if equals x term then .ok () else .error (.cmpFailed op x term)
  else if op = ne then
    if !equals x term then .ok () else .error (.cmpFailed op x term)
  else .error (.unsupportedOp op x term)

/-- Model of `compare`: validate the operator, classify the LEFT operand by
its runtime kind, and dispatch.  A non-time struct falls through its switch
case to `compareInterface`, as in the source.  (The `cmp == nil` pointer
guard of the Go function is unrepresentable here: a `CmpField` value always
exists.) -/
def compare (x : GoValue) (cmp : CmpField) : Except CheckErr Unit :=
  let op := cmp.op
  if op < eq || op > gte then .error (.invalidOperator op)
  else
    match x with
    | .intV n => compareInt64 n cmp
    | .uintV n => compareUint64 n cmp
    | .floatV f => compareFloat64 f cmp
    | .stringV s => compareString s cmp
    | .timeV t => compareTime t cmp
    | x => compareInterface x cmp

/-- Model of evaluating `Required(args...)`: returns the empty-argument
error on the first empty value, `none` when `isEmpty` panics. -/
def Required : List GoValue → Option (Except CheckErr Unit)
  | [] => some (.ok ())
  | arg :: rest =>
    match isEmpty arg with
    | none => none
    | some true => some (.error .emptyArg)
    | some false => Required rest

/-- Model of evaluating `Eq(x, term)`. -/
def EqCheck (x term : GoValue) : Except CheckErr Unit :=
  match newCmpField eq term with
  | .error e => .error e
  | .ok cmpField => compare x cmpField

/-- Model of evaluating `Ne(x, term)`. -/
def NeCheck (x term : GoValue) : Except CheckErr Unit :=
  match newCmpField ne term with
  | .error e => .error e
  | .ok cmpField => compare x cmpField

/-- Model of evaluating `Between(x, lower, upper)`: lower bound (`gte`)
first, short-circuiting on its error, then upper bound (`lte`). -/
def Between (x lower upper : GoValue) : Except CheckErr Unit :=
  match newCmpField gte lower with
  | .error e => .error e
  | .ok cmpField =>
    match compare x cmpField with
    | .error e => .error e
    | .ok _ =>
      match newCmpField lte upper with
      | .error e => .error e
      | .ok cmpField2 => compare x cmpField2

/-- The loop of `In`: any `compare` error (conversion included) is treated
as a non-match and the loop continues; the final error names the full
candidate list. -/
def inLoop (x : GoValue) (elems : List GoValue) : List GoValue → Except CheckErr Unit
  | [] => .error (.inFailed x elems)
  | elem :: rest =>
    match newCmpField eq elem with
    | .error e => .error e
    | .ok cmpField =>
      match compare x cmpField with
      | .ok _ => .ok ()
      | .error _ => inLoop x elems rest

/-- Model of evaluating `In(x, elems...)`. -/
def InCheck (x : GoValue) (elems : List GoValue) : Except CheckErr Unit :=
  inLoop x elems elems

/-- The loop of `NotIn`: a successful `eq` comparison fails the check
naming the matching structure; a `compare` error means not-equal and the
loop continues. -/
def notInLoop (x : GoValue) (elems : List GoValue) : List GoValue → Except CheckErr Unit
  | [] => .ok ()
  | elem :: rest =>
    match newCmpField eq elem with
    | .error e => .error e
    | .ok cmpField =>
      match compare x cmpField with
      | .ok _ => .error (.notInFailed x elems)
      | .error _ => notInLoop x elems rest

/-- Model of evaluating `NotIn(x, elems...)`. -/
def NotInCheck (x : GoValue) (elems : List GoValue) : Except CheckErr Unit :=
  notInLoop x elems elems

/-- Model of `unicode.IsSpace` restricted to the whitespace characters the
embedding distinguishes. -/
def isSpace (c : Char) : Bool := c.isWhitespace

/-- Model of `strings.TrimSpace`: drop leading and trailing whitespace. -/
def trimSpace (s : String) : String :=
  ⟨((s.data.dropWhile isSpace).reverse.dropWhile isSpace).reverse⟩

/-- The `isEmptyStr` helper: empty after trimming whitespace. -/
def isEmptyStr (field : String) : Bool := decide (trimSpace field = "")

/-- The `stripSpaces` helper: remove every whitespace character. -/
def stripSpaces (s : String) : String :=
  ⟨s.data.filter (fun c => !isSpace c)⟩

/-- Model of `requiredErr`: no error when not required; otherwise the
trimmed custom message, or the shared empty-argument error when the
message trims to nothing. -/
def requiredErr (required : Bool) (message : String) : Except CheckErr Unit :=
  if !required then .ok ()
  else
    let message := trimSpace message
    if message ≠ "" then .error (.msg message) else .error .emptyArg

/-- Model of evaluating `Matches(val, pattern, required)`.  The regexp
engine is a parameter: `matchString pat v` is `none` when the pattern is
malformed, otherwise `some` of the match result. -/
def Matches (matchString : String → String → Option Bool)
    (val pattern : String) (required : Bool) : Except CheckErr Unit :=
  if isEmptyStr val then requiredErr required "match term cannot be empty"
  else
    match matchString pattern val with
    | none => .error (.invalidPattern pattern)
    | some true => .ok ()
    | some false => .error (.patternMismatch val pattern)

/-- Model of evaluating `Email(email, required)`; `parseAddress` models
`mail.ParseAddress` succeeding. -/
def Email (parseAddress : String → Bool) (email : String) (required : Bool) :
    Except CheckErr Unit :=
  if isEmptyStr email then requiredErr required "email address cannot be empty"
  else if !parseAddress email then .error (.formatInvalid "email address" email)
  else .ok ()

/-- The per-segment loop of `EmailList`. -/
def emailListLoop (parseAddress : String → Bool) : List String → Except CheckErr Unit
  | [] => .ok ()
  | email :: rest =>
    if !parseAddress email then .error (.formatInvalid "email address" email)
    else emailListLoop parseAddress rest

/-- Model of evaluating `EmailList(list, required)`: strip all whitespace,
test emptiness, split on commas, validate each segment in order. -/
def EmailList (parseAddress : String → Bool) (list : String) (required : Bool) :
    Except CheckErr Unit :=
  let list := stripSpaces list
  if isEmptyStr list then requiredErr required "email address list cannot be empty"
  else emailListLoop parseAddress (list.splitOn ",")

/-- Model of evaluating `URL(url, required)`; `regMatch` models the URL
regular expression. -/
def URLCheck (regMatch : String → Bool) (url : String) (required : Bool) :
    Except CheckErr Unit :=
  if isEmptyStr url then requiredErr required "URL cannot be empty"
  else if !regMatch url then .error (.formatInvalid "URL" url)
  else .ok ()

/-- Model of evaluating `IBAN(iban, required)`. -/
def IBANCheck (regMatch : String → Bool) (iban : String) (required : Bool) :
    Except CheckErr Unit :=
  if isEmptyStr iban then requiredErr required "IBAN cannot be empty"
  else if !regMatch iban then .error (.formatInvalid "IBAN" iban)
  else .ok ()

/-- Model of evaluating `VAT(vat, required)`. -/
def VATCheck (regMatch : String → Bool) (vat : String) (required : Bool) :
    Except CheckErr Unit :=
  if isEmptyStr vat then requiredErr required "VAT number cannot be empty"
  else if !regMatch vat then .error (.formatInvalid "VAT number" vat)
  else .ok ()

/-- Model of evaluating `IP(ip, required)`; `parseIP` models `net.ParseIP`
succeeding. -/
def IPCheck (parseIP : String → Bool) (ip : String) (required : Bool) :
    Except CheckErr Unit :=
  if isEmptyStr ip then requiredErr required "IP address cannot be empty"
  else if !parseIP ip then .error (.formatInvalid "IP address" ip)
  else .ok ()

/-- Model of evaluating `MAC(mac, required)`; `parseMAC` models
`net.ParseMAC` succeeding. -/
def MACCheck (parseMAC : String → Bool) (mac : String) (required : Bool) :
    Except CheckErr Unit :=
  if isEmptyStr mac then requiredErr required "MAC address cannot be empty"
  else if !parseMAC mac then .error (.formatInvalid "mac address" mac)
  else .ok ()

/-- A value of the structural/opaque category: everything `compare` routes
to `compareInterface` (not a signed/unsigned integer, float, string, or
`time.Time`). -/
def isStructural : GoValue → Bool
  | .intV _ => false
  | .uintV _ => false
  | .floatV _ => false
  | .stringV _ => false
  | .timeV _ => false
  | _ => true

mutual

/-- No floating-point NaN occurs anywhere inside the value. -/
def nanFree : GoValue → Bool
  | .floatV f => !(f == .nan)
  | .ptrV v => nanFree v
  | .sliceV xs => nanFreeList xs
  | .structV fs => nanFreeList fs
  | .mapV es => nanFreePairs es
  | _ => true

/-- `nanFree` over slice elements / struct fields. -/
def nanFreeList : GoList → Bool
  | .nil => true
  | .cons x xs => nanFree x && nanFreeList xs

/-- `nanFree` over map entries. -/
def nanFreePairs : GoPairs → Bool
  | .nil => true
  | .cons k v es => nanFree k && nanFree v && nanFreePairs es

end

/-- The term's category is compatible with the left operand's: the coercion
`compare` applies to the term succeeds (structural left operands apply no
coercion at all). -/
def coercible : GoValue → GoValue → Bool
  | .intV _, .intV _ => true
  | .intV _, _ => false
  | .uintV _, .uintV _ => true
  | .uintV _, _ => false
  | .floatV _, .floatV _ => true
  | .floatV _, _ => false
  | .stringV _, .stringV _ => true
  | .stringV _, _ => false
  | .timeV _, .timeV _ => true
  | .timeV _, _ => false
  | _, _ => true

theorem feq_refl_of_ne_nan (f : GoFloat) (h : (f == GoFloat.nan) = false) :
    feq f f = true := by
  cases f <;> simp_all [feq]

mutual

theorem deepEqual_refl : ∀ x : GoValue, nanFree x = true → deepEqual x x = true
  | .nilV, _ => rfl
  | .intV _, _ => by simp [deepEqual]
  | .uintV _, _ => by simp [deepEqual]
  | .floatV f, h => by
    simp only [nanFree] at h
    simpa [deepEqual] using feq_refl_of_ne_nan f (by simpa using h)
  | .stringV _, _ => by simp [deepEqual]
  | .boolV b, _ => by cases b <;> rfl
  | .timeV _, _ => by simp [deepEqual]
  | .ptrNilV, _ => rfl
  | .ptrV v, h => by
    simp only [nanFree] at h
    simpa [deepEqual] using deepEqual_refl v h
  | .sliceV xs, h => by
    simp only [nanFree] at h
    simpa [deepEqual] using deepEqualList_refl xs h
  | .structV fs, h => by
    simp only [nanFree] at h
    simpa [deepEqual] using deepEqualList_refl fs h
  | .mapV es, h => by
    simp only [nanFree] at h
    simpa [deepEqual] using deepEqualPairs_refl es h

theorem deepEqualList_refl : ∀ xs : GoList, nanFreeList xs = true →
    deepEqualList xs xs = true
  | .nil, _ => rfl
  | .cons x xs, h => by
    simp only [nanFreeList, Bool.and_eq_true] at h
    simp [deepEqualList, deepEqual_refl x h.1, deepEqualList_refl xs h.2]

theorem deepEqualPairs_refl : ∀ es : GoPairs, nanFreePairs es = true →
    deepEqualPairs es es = true
  | .nil, _ => rfl
  | .cons k v es, h => by
    simp only [nanFreePairs, Bool.and_eq_true] at h
    simp [deepEqualPairs, deepEqual_refl k h.1.1, deepEqual_refl v h.1.2,
      deepEqualPairs_refl es h.2]

end

theorem equals_refl (x : GoValue) (h : nanFree x = true) : equals x x = true :=
  deepEqual_refl x h

theorem compareInterface_eq_self (x : GoValue) (h : nanFree x = true) :
    compareInterface x ⟨eq, x⟩ = .ok () := by
  simp [compareInterface, eq, equals_refl x h]

/-- C1 counterexample: for the floating-point value NaN, compare(x, eq, x)
does not succeed — IEEE-754 equality makes NaN unequal to itself, so the
comparison fails with the eq comparison-failed error. -/
theorem compare_eq_nan_counterexample :
    compare (.floatV .nan) ⟨eq, .floatV .nan⟩ =
      .error (.cmpFailed eq (.floatV .nan) (.floatV .nan)) := rfl

/-- C1 (amended): compare(x, eq, x) succeeds for every supported value x of
every category (signed integer, unsigned integer, floating point, string,
timestamp, structural/opaque) that contains no floating-point NaN; for NaN
the IEEE rule that NaN is unequal to itself makes the comparison fail. -/
theorem compare_eq_refl_of_nanFree (x : GoValue) (h : nanFree x = true) :
    compare x ⟨eq, x⟩ = .ok () := by
  cases x with
  | intV n => simp [compare, compareInt64, toInt64, eq, gte]
  | uintV n => simp [compare, compareUint64, toUint64, eq, gte]
  | floatV f =>
    simp only [nanFree] at h
    simp [compare, compareFloat64, toFloat64, eq, gte, feq_refl_of_ne_nan f (by simpa using h)]
  | stringV s => simp [compare, compareString, toString, eq, gte]
  | timeV t => simp [compare, compareTime, toTime, eq, gte]
  | nilV => simpa [compare, eq, gte] using compareInterface_eq_self _ h
  | boolV b => simpa [compare, eq, gte] using compareInterface_eq_self _ h
  | ptrNilV => simpa [compare, eq, gte] using compareInterface_eq_self _ h
  | ptrV v => simpa [compare, eq, gte] using compareInterface_eq_self _ h
  | sliceV xs => simpa [compare, eq, gte] using compareInterface_eq_self _ h
  | structV fs => simpa [compare, eq, gte] using compareInterface_eq_self _ h
  | mapV es => simpa [compare, eq, gte] using compareInterface_eq_self _ h

/-- Witness for C1's amended theorem at a concrete NaN-free value. -/
theorem compare_eq_refl_witness :
    nanFree (GoValue.sliceV (.cons (.stringV "a") .nil)) = true ∧
    compare (GoValue.sliceV (.cons (.stringV "a") .nil))
      ⟨eq, GoValue.sliceV (.cons (.stringV "a") .nil)⟩ = .ok () :=
  ⟨rfl, compare_eq_refl_of_nanFree _ rfl⟩

/-- C2: classification is driven by the left operand only; for a
signed-integer left operand and a string right operand, every in-range
operator (eq..gte, in particular lt as in Lt(3, "3")) yields the conversion
error naming the rejected operand's string kind — no string or numeric
comparison is ever performed. -/
theorem compare_int_left_string_term_conversion (n : Int) (s : String) (op : Int)
    (h1 : eq ≤ op) (h2 : op ≤ gte) :
    compare (.intV n) ⟨op, .stringV s⟩ = .error (.conv "int64" "string") := by
  have hlt : ¬ op < eq := not_lt.mpr h1
  have hgt : ¬ op > gte := not_lt.mpr h2
  simp [compare, hlt, hgt, compareInt64, toInt64, kindName]

/-- Witness for C2 at Lt(3, "3"). -/
theorem compare_int_left_string_term_witness :
    eq ≤ lt ∧ lt ≤ gte ∧
    compare (.intV 3) ⟨lt, .stringV "3"⟩ = .error (.conv "int64" "string") :=
  ⟨by decide, by decide,
    compare_int_left_string_term_conversion 3 "3" lt (by decide) (by decide)⟩

theorem compare_structural_dispatch (x term : GoValue) (op : Int)
    (h : isStructural x = true) (h1 : ¬ op < eq) (h2 : ¬ op > gte) :
    compare x ⟨op, term⟩ = compareInterface x ⟨op, term⟩ := by
  cases x <;> first
    | (simp [compare, h1, h2]; done)
    | simp [isStructural] at h

/-- C3: for every structural/opaque left operand and every ordering
operator (lt, lte, gt, gte), compare fails with the unsupported-operation
error naming the operator and both operands; eq and ne are the only
evaluated operators, decided by deep structural equality. -/
theorem compare_structural_ordering_unsupported (x term : GoValue)
    (h : isStructural x = true) :
    (∀ op : Int, op = lt ∨ op = lte ∨ op = gt ∨ op = gte →
      compare x ⟨op, term⟩ = .error (.unsupportedOp op x term)) ∧
    compare x ⟨eq, term⟩ =
      (if equals x term then .ok () else .error (.cmpFailed eq x term)) ∧
    compare x ⟨ne, term⟩ =
      (if equals x term then .error (.cmpFailed ne x term) else .ok ()) := by
  refine ⟨?_, ?_, ?_⟩
  · intro op hop
    have h1 : ¬ op < eq := by rcases hop with h | h | h | h <;> subst h <;> decide
    have h2 : ¬ op > gte := by rcases hop with h | h | h | h <;> subst h <;> decide
    rw [compare_structural_dispatch x term op h h1 h2]
    rcases hop with h | h | h | h <;> subst h <;>
      simp [compareInterface, eq, ne, lt, lte, gt, gte]
  · rw [compare_structural_dispatch x term eq h (by decide) (by decide)]
    cases hb : equals x term <;> simp [compareInterface, eq, ne, hb]
  · rw [compare_structural_dispatch x term ne h (by decide) (by decide)]
    cases hb : equals x term <;> simp [compareInterface, eq, ne, hb]

/-- Witness for C3: a slice compared with lt yields the unsupported error. -/
theorem compare_structural_ordering_witness :
    isStructural (GoValue.sliceV .nil) = true ∧
    compare (GoValue.sliceV .nil) ⟨lt, .intV 1⟩ =
      .error (.unsupportedOp lt (GoValue.sliceV .nil) (.intV 1)) :=
  ⟨rfl, (compare_structural_ordering_unsupported (GoValue.sliceV .nil) (.intV 1)
    rfl).1 lt (Or.inl rfl)⟩

/-- C4 counterexample: for x = 3 and term = "a" both calls take the
signed-integer branch; compare(x, eq, term) fails (conversion error) yet
compare(x, ne, term) does not succeed — it fails with the same conversion
error — refuting the stated equivalence. -/
theorem compare_ne_eq_duality_counterexample :
    ¬ ((compare (.intV 3) ⟨ne, .stringV "a"⟩ = .ok ()) ↔
      ¬ (compare (.intV 3) ⟨eq, .stringV "a"⟩ = .ok ())) := by
  have h1 : compare (.intV 3) ⟨ne, .stringV "a"⟩ = .error (.conv "int64" "string") := rfl
  have h2 : compare (.intV 3) ⟨eq, .stringV "a"⟩ = .error (.conv "int64" "string") := rfl
  simp [h1, h2]

theorem dualInt (n m : Int) :
    compare (.intV n) ⟨ne, .intV m⟩ = .ok () ↔
      ¬ (compare (.intV n) ⟨eq, .intV m⟩ = .ok ()) := by
  by_cases hnm : n = m <;> simp [compare, eq, ne, gte, compareInt64, toInt64, hnm]

theorem dualUint (n m : Nat) :
    compare (.uintV n) ⟨ne, .uintV m⟩ = .ok () ↔
      ¬ (compare (.uintV n) ⟨eq, .uintV m⟩ = .ok ()) := by
  by_cases hnm : n = m <;> simp [compare, eq, ne, gte, compareUint64, toUint64, hnm]

theorem dualFloat (f g : GoFloat) :
    compare (.floatV f) ⟨ne, .floatV g⟩ = .ok () ↔
      ¬ (compare (.floatV f) ⟨eq, .floatV g⟩ = .ok ()) := by
  cases hf : feq f g <;> simp [compare, eq, ne, gte, compareFloat64, toFloat64, hf]

theorem dualString (s t : String) :
    compare (.stringV s) ⟨ne, .stringV t⟩ = .ok () ↔
      ¬ (compare (.stringV s) ⟨eq, .stringV t⟩ = .ok ()) := by
  by_cases hst : s = t <;> simp [compare, eq, ne, gte, compareString, toString, hst]

theorem dualTime (t u : GoTime) :
    compare (.timeV t) ⟨ne, .timeV u⟩ = .ok () ↔
      ¬ (compare (.timeV t) ⟨eq, .timeV u⟩ = .ok ()) := by
  by_cases htu : t.instant = u.instant <;>
    simp [compare, eq, ne, gte, compareTime, toTime, htu]

theorem dualInterface (x term : GoValue) (h : isStructural x = true) :
    compare x ⟨ne, term⟩ = .ok () ↔ ¬ (compare x ⟨eq, term⟩ = .ok ()) := by
  rw [compare_structural_dispatch x term ne h (by decide) (by decide),
    compare_structural_dispatch x term eq h (by decide) (by decide)]
  cases hb : equals x term <;> simp [compareInterface, eq, ne, hb]

/-- C4 (amended): compare(x, ne, term) succeeds iff compare(x, eq, term)
fails, provided the term coerces successfully into x's category (structural
left operands included, which coerce nothing); when coercion fails, both
calls fail with the same conversion error, so the equivalence as originally
stated does not hold there. -/
theorem compare_ne_eq_duality_of_coercible (x term : GoValue)
    (h : coercible x term = true) :
    (compare x ⟨ne, term⟩ = .ok () ↔ ¬ (compare x ⟨eq, term⟩ = .ok ())) := by
  cases x with
  | intV n =>
    cases term
    case intV m => exact dualInt n m
    all_goals simp [coercible] at h
  | uintV n =>
    cases term
    case uintV m => exact dualUint n m
    all_goals simp [coercible] at h
  | floatV f =>
    cases term
    case floatV g => exact dualFloat f g
    all_goals simp [coercible] at h
  | stringV s =>
    cases term
    case stringV t => exact dualString s t
    all_goals simp [coercible] at h
  | timeV t =>
    cases term
    case timeV u => exact dualTime t u
    all_goals simp [coercible] at h
  | nilV => exact dualInterface _ term rfl
  | boolV b => exact dualInterface _ term rfl
  | ptrNilV => exact dualInterface _ term rfl
  | ptrV v => exact dualInterface _ term rfl
  | sliceV xs => exact dualInterface _ term rfl
  | structV fs => exact dualInterface _ term rfl
  | mapV es => exact dualInterface _ term rfl

/-- Witness for C4's amended theorem at x = 3, term = 4. -/
theorem compare_ne_eq_duality_witness :
    coercible (.intV 3) (.intV 4) = true ∧
    compare (.intV 3) ⟨ne, .intV 4⟩ = .ok () :=
  ⟨rfl, (compare_ne_eq_duality_of_coercible (.intV 3) (.intV 4) rfl).mpr
    (by simp [show compare (.intV 3) ⟨eq, .intV 4⟩ =
      .error (.cmpFailed eq (.intV 3) (.intV 4)) from rfl])⟩

theorem compare_time_gte_eq (t u : GoTime) :
    compare (.timeV t) ⟨gte, .timeV u⟩ =
      if u.instant ≤ t.instant then .ok ()
      else .error (.cmpFailed gte (.timeV t) (.timeV u)) := by
  by_cases h : u.instant < t.instant <;> by_cases he : t.instant = u.instant <;>
    by_cases hle : u.instant ≤ t.instant <;>
      simp [compare, compareTime, toTime, eq, ne, lt, lte, gt, gte, h, he, hle] <;>
        omega

theorem compare_time_lte_eq (t u : GoTime) :
    compare (.timeV t) ⟨lte, .timeV u⟩ =
      if t.instant ≤ u.instant then .ok ()
      else .error (.cmpFailed lte (.timeV t) (.timeV u)) := by
  by_cases h : t.instant < u.instant <;> by_cases he : t.instant = u.instant <;>
    by_cases hle : t.instant ≤ u.instant <;>
      simp [compare, compareTime, toTime, eq, ne, lt, lte, gt, gte, h, he, hle] <;>
        omega

/-- C5: for same-category comparable operands, Between(x, lo, hi) succeeds
iff x is at least lo and at most hi under the category's native ordering
(signed, unsigned, IEEE float, lexical string, time instant); and whenever
the lower-bound (gte) comparison fails with an error, Between returns that
error unchanged, independent of the upper bound. -/
theorem between_iff_bounds_and_short_circuit :
    (∀ a l u : Int,
      Between (.intV a) (.intV l) (.intV u) = .ok () ↔ l ≤ a ∧ a ≤ u) ∧
    (∀ a l u : Nat,
      Between (.uintV a) (.uintV l) (.uintV u) = .ok () ↔ l ≤ a ∧ a ≤ u) ∧
    (∀ f lf uf : GoFloat,
      Between (.floatV f) (.floatV lf) (.floatV uf) = .ok () ↔
        fge f lf = true ∧ fle f uf = true) ∧
    (∀ s ls us : String,
      Between (.stringV s) (.stringV ls) (.stringV us) = .ok () ↔ ls ≤ s ∧ s ≤ us) ∧
    (∀ t lo hi : GoTime,
      Between (.timeV t) (.timeV lo) (.timeV hi) = .ok () ↔
        lo.instant ≤ t.instant ∧ t.instant ≤ hi.instant) ∧
    (∀ (x lo hi : GoValue) (e : CheckErr),
      compare x ⟨gte, lo⟩ = .error e → Between x lo hi = .error e) := by
  refine ⟨?_, ?_, ?_, ?_, ?_, ?_⟩
  · intro a l u
    by_cases h1 : l ≤ a <;> by_cases h2 : a ≤ u <;>
      simp [Between, newCmpField, compare, compareInt64, toInt64,
        eq, ne, lt, lte, gt, gte, h1, h2]
  · intro a l u
    by_cases h1 : l ≤ a <;> by_cases h2 : a ≤ u <;>
      simp [Between, newCmpField, compare, compareUint64, toUint64,
        eq, ne, lt, lte, gt, gte, h1, h2]
  · intro f lf uf
    cases h1 : fge f lf <;> cases h2 : fle f uf <;>
      simp [Between, newCmpField, compare, compareFloat64, toFloat64,
        eq, ne, lt, lte, gt, gte, h1, h2]
  · intro s ls us
    by_cases h1 : ls ≤ s <;> by_cases h2 : s ≤ us <;>
      simp [Between, newCmpField, compare, compareString, toString,
        eq, ne, lt, lte, gt, gte, h1, h2]
  · intro t lo hi
    by_cases h1 : lo.instant ≤ t.instant <;> by_cases h2 : t.instant ≤ hi.instant <;>
      simp [Between, show ∀ v : GoValue, newCmpField gte v = .ok ⟨gte, v⟩ from fun _ => rfl,
        show ∀ v : GoValue, newCmpField lte v = .ok ⟨lte, v⟩ from fun _ => rfl,
        compare_time_gte_eq, compare_time_lte_eq, h1, h2]
  · intro x lo hi e h
    simp [Between, show newCmpField gte lo = .ok ⟨gte, lo⟩ from rfl, h]

/-- Witness for C5: Between(2, 3, 4) fails with the gte error of the lower
bound, and Between(5, 1, 10) succeeds. -/
theorem between_witness :
    compare (.intV 2) ⟨gte, .intV 3⟩ =
      .error (.cmpFailed gte (.intV 2) (.intV 3)) ∧
    Between (.intV 2) (.intV 3) (.intV 4) =
      .error (.cmpFailed gte (.intV 2) (.intV 3)) ∧
    Between (.intV 5) (.intV 1) (.intV 10) = .ok () :=
  ⟨rfl,
    between_iff_bounds_and_short_circuit.2.2.2.2.2 (.intV 2) (.intV 3) (.intV 4)
      (.cmpFailed gte (.intV 2) (.intV 3)) rfl,
    (between_iff_bounds_and_short_circuit.1 5 1 10).mpr (by decide)⟩

/-- C6: Required("") fails with the empty-argument error, Required("a")
succeeds, Required([]string{}) fails (a zero-length slice is empty), and
Required([]string{""}) succeeds (a length-one slice is not itself empty,
regardless of its element). -/
theorem required_string_slice_examples :
    Required [.stringV ""] = some (.error .emptyArg) ∧
    Required [.stringV "a"] = some (.ok ()) ∧
    Required [.sliceV .nil] = some (.error .emptyArg) ∧
    Required [.sliceV (.cons (.stringV "") .nil)] = some (.ok ()) :=
  ⟨rfl, rfl, rfl, rfl⟩

/-- C7: timestamps are compared strictly by instant — two timestamps with
the same instant but different display offsets are eq, and the four
ordering operators are decided by instant before/after (equal-or-before for
lte, equal-or-after for gte), never by representation. -/
theorem compare_time_by_instant :
    (∀ i o1 o2 : Int, compare (.timeV ⟨i, o1⟩) ⟨eq, .timeV ⟨i, o2⟩⟩ = .ok ()) ∧
    (∀ t u : GoTime,
      compare (.timeV t) ⟨lt, .timeV u⟩ = .ok () ↔ t.instant < u.instant) ∧
    (∀ t u : GoTime,
      compare (.timeV t) ⟨lte, .timeV u⟩ = .ok () ↔ t.instant ≤ u.instant) ∧
    (∀ t u : GoTime,
      compare (.timeV t) ⟨gt, .timeV u⟩ = .ok () ↔ u.instant < t.instant) ∧
    (∀ t u : GoTime,
      compare (.timeV t) ⟨gte, .timeV u⟩ = .ok () ↔ u.instant ≤ t.instant) := by
  refine ⟨?_, ?_, ?_, ?_, ?_⟩
  · intro i o1 o2
    simp [compare, compareTime, toTime, eq, ne, lt, lte, gt, gte]
  · intro t u
    by_cases h : t.instant < u.instant <;>
      simp [compare, compareTime, toTime, eq, ne, lt, lte, gt, gte, h]
  · intro t u
    by_cases h : t.instant ≤ u.instant <;>
      simp [compare, compareTime, toTime, eq, ne, lt, lte, gt, gte, h] <;> omega
  · intro t u
    by_cases h : u.instant < t.instant <;>
      simp [compare, compareTime, toTime, eq, ne, lt, lte, gt, gte, h]
  · intro t u
    by_cases h : u.instant ≤ t.instant <;>
      simp [compare, compareTime, toTime, eq, ne, lt, lte, gt, gte, h] <;> omega

/-- Witness for C7: the same instant under offsets +0100 and -0500 is eq,
and an earlier instant is lt. -/
theorem compare_time_by_instant_witness :
    compare (.timeV ⟨1000, 3600⟩) ⟨eq, .timeV ⟨1000, -18000⟩⟩ = .ok () ∧
    compare (.timeV ⟨5, 0⟩) ⟨lt, .timeV ⟨7, 0⟩⟩ = .ok () :=
  ⟨compare_time_by_instant.1 1000 3600 (-18000),
    (compare_time_by_instant.2.1 ⟨5, 0⟩ ⟨7, 0⟩).mpr (by decide)⟩

/-- C8: evaluating Required on a typed nil pointer neither succeeds nor
returns the empty-argument error: the Ptr branch of isEmpty calls
Interface() on the invalid value obtained from Elem(), which panics
(modelled as none). -/
theorem required_typed_nil_ptr_panics :
    Required [GoValue.ptrNilV] = none ∧ isEmpty GoValue.ptrNilV = none :=
  ⟨rfl, rfl⟩

theorem dropWhile_isSpace_eq_nil (l : List Char) (h : ∀ c ∈ l, isSpace c = true) :
    l.dropWhile isSpace = [] := by
  induction l with
  | nil => rfl
  | cons c cs ih =>
    rw [List.dropWhile_cons_of_pos (h c (by simp))]
    exact ih fun d hd => h d (by simp [hd])

theorem trimSpace_of_all_space (s : String) (h : ∀ c ∈ s.data, isSpace c = true) :
    trimSpace s = "" := by
  unfold trimSpace
  rw [dropWhile_isSpace_eq_nil s.data h]
  rfl

theorem isEmptyStr_of_all_space (s : String) (h : ∀ c ∈ s.data, isSpace c = true) :
    isEmptyStr s = true := by
  simp [isEmptyStr, trimSpace_of_all_space s h]

theorem stripSpaces_of_all_space (s : String) (h : ∀ c ∈ s.data, isSpace c = true) :
    stripSpaces s = "" := by
  unfold stripSpaces
  rw [List.filter_eq_nil_iff.mpr fun c hc => by simp [h c hc]]

/-- C9: the string-format checks gate on whitespace-trimmed emptiness: for
any all-whitespace value, each of Matches, Email, EmailList, URL, IBAN,
VAT, IP and MAC succeeds without consulting its pattern/parser when the
required flag is false, and fails with its cannot-be-empty error when the
flag is true (universally in the pattern engine and parsers, so the
pattern is never evaluated). -/
theorem format_checks_whitespace_gate (s p : String)
    (h : ∀ c ∈ s.data, isSpace c = true)
    (matchString : String → String → Option Bool)
    (parseAddress rx parseIP parseMAC : String → Bool) :
    Matches matchString s p false = .ok () ∧
    Matches matchString s p true = .error (.msg "match term cannot be empty") ∧
    Email parseAddress s false = .ok () ∧
    Email parseAddress s true = .error (.msg "email address cannot be empty") ∧
    EmailList parseAddress s false = .ok () ∧
    EmailList parseAddress s true = .error (.msg "email address list cannot be empty") ∧
    URLCheck rx s false = .ok () ∧
    URLCheck rx s true = .error (.msg "URL cannot be empty") ∧
    IBANCheck rx s false = .ok () ∧
    IBANCheck rx s true = .error (.msg "IBAN cannot be empty") ∧
    VATCheck rx s false = .ok () ∧
    VATCheck rx s true = .error (.msg "VAT number cannot be empty") ∧
    IPCheck parseIP s false = .ok () ∧
    IPCheck parseIP s true = .error (.msg "IP address cannot be empty") ∧
    MACCheck parseMAC s false = .ok () ∧
    MACCheck parseMAC s true = .error (.msg "MAC address cannot be empty") := by
  have he : isEmptyStr s = true := isEmptyStr_of_all_space s h
  have hstrip : isEmptyStr (stripSpaces s) = true := by
    rw [stripSpaces_of_all_space s h]; rfl
  refine ⟨?_, ?_, ?_, ?_, ?_, ?_, ?_, ?_, ?_, ?_, ?_, ?_, ?_, ?_, ?_, ?_⟩
  · simp only [Matches]; rw [if_pos he]; rfl
  · simp only [Matches]; rw [if_pos he]; rfl
  · simp only [Email]; rw [if_pos he]; rfl
  · simp only [Email]; rw [if_pos he]; rfl
  · simp only [EmailList]; rw [if_pos hstrip]; rfl
  · simp only [EmailList]; rw [if_pos hstrip]; rfl
  · simp only [URLCheck]; rw [if_pos he]; rfl
  · simp only [URLCheck]; rw [if_pos he]; rfl
  · simp only [IBANCheck]; rw [if_pos he]; rfl
  · simp only [IBANCheck]; rw [if_pos he]; rfl
  · simp only [VATCheck]; rw [if_pos he]; rfl
  · simp only [VATCheck]; rw [if_pos he]; rfl
  · simp only [IPCheck]; rw [if_pos he]; rfl
  · simp only [IPCheck]; rw [if_pos he]; rfl
  · simp only [MACCheck]; rw [if_pos he]; rfl
  · simp only [MACCheck]; rw [if_pos he]; rfl

/-- Witness for C9 at the one-space string with a never-matching engine. -/
theorem format_checks_whitespace_gate_witness :
    (∀ c ∈ (" " : String).data, isSpace c = true) ∧
    Matches (fun _ _ => none) " " "x" false = .ok () ∧
    Matches (fun _ _ => none) " " "x" true = .error (.msg "match term cannot be empty") :=
  ⟨by decide,
    (format_checks_whitespace_gate " " "x" (by decide) (fun _ _ => none)
      (fun _ => false) (fun _ => false) (fun _ => false) (fun _ => false)).1,
    (format_checks_whitespace_gate " " "x" (by decide) (fun _ _ => none)
      (fun _ => false) (fun _ => false) (fun _ => false) (fun _ => false)).2.1⟩

/-- C10: In and NotIn swallow per-candidate comparison errors: whenever
compare(x, eq, candidate) fails — in particular with a conversion error for
a category-incompatible candidate — the candidate is treated as a
non-match and the loop continues; concretely In(3, "a", 3) succeeds and
NotIn(3, "a") succeeds with no conversion error surfaced. -/
theorem in_notin_swallow_conversion_errors :
    (∀ (x elem : GoValue) (full rest : List GoValue) (err : CheckErr),
      compare x ⟨eq, elem⟩ = .error err →
        inLoop x full (elem :: rest) = inLoop x full rest) ∧
    (∀ (x elem : GoValue) (full rest : List GoValue) (err : CheckErr),
      compare x ⟨eq, elem⟩ = .error err →
        notInLoop x full (elem :: rest) = notInLoop x full rest) ∧
    InCheck (.intV 3) [.stringV "a", .intV 3] = .ok () ∧
    NotInCheck (.intV 3) [.stringV "a"] = .ok () := by
  refine ⟨?_, ?_, rfl, rfl⟩
  · intro x elem full rest err h
    simp [inLoop, show newCmpField eq elem = .ok ⟨eq, elem⟩ from rfl, h]
  · intro x elem full rest err h
    simp [notInLoop, show newCmpField eq elem = .ok ⟨eq, elem⟩ from rfl, h]

/-- Witness for C10's continuation property at a conversion error. -/
theorem in_notin_swallow_witness :
    compare (.intV 3) ⟨eq, .stringV "a"⟩ = .error (.conv "int64" "string") ∧
    inLoop (.intV 3) [] [.stringV "a"] = inLoop (.intV 3) [] [] :=
  ⟨rfl, in_notin_swallow_conversion_errors.1 (.intV 3) (.stringV "a") [] []
    (.conv "int64" "string") rfl⟩

end Check
